import Mathlib

/-!
Shallow embedding of the TurtleOld/mikrotik-config device registration and
remote-data-acquisition pipeline, and proofs about its specification.

The embedding covers:
* `MikrotikService` (src/app/services/mikrotik_service.py): the HTTP client
  wrapper with its lenient and strict endpoint fetchers and the aggregator
  `get_all_data`;
* `DeviceRepository` (src/app/repositories/device_repository.py): the
  YAML-file-backed device registry;
* `DeviceService` (src/app/services/device_service.py): the registration,
  refresh, lookup and deletion orchestration;
* the `DeviceCreate` pydantic model with its IP-address validator
  (src/app/models/device.py).

Effects are made explicit: the remote device is a function `World.net` from
request parameters to a `FetchOutcome`; exceptions become `Except Exc`;
wall-clock time and uuid generation become counters in `RepoState`; the
sequence of external calls made by an operation is recorded in a `List Event`
trace threaded through every function.  The env-sourced global `settings`
object is passed explicitly as a `Settings` value.
-/

set_option linter.unusedVariables false

/-- JSON values, as produced by `response.json()` by the queried device. -/
inductive Json where
  | null : Json
  | bool : Bool → Json
  | num : Int → Json
  | str : String → Json
  | arr : List Json → Json
  | obj : List (String × Json) → Json

/-- `isinstance(data, dict)` on an embedded JSON value. -/
def Json.isObj : Json → Bool
  | .obj _ => true
  | _ => false

/-- `isinstance(data, list)` on an embedded JSON value. -/
def Json.isArr : Json → Bool
  | .arr _ => true
  | _ => false

/-- Outcome of one HTTP GET against the device, as classified by the
`except` clauses of mikrotik_service.py: a 2xx response whose body parsed as
JSON (`success`), a non-2xx status (`httpx.HTTPStatusError`), a transport
failure (`httpx.RequestError`), or any other exception such as a JSON parse
error (the bare `except Exception` branch). -/
inductive FetchOutcome where
  | success : Json → FetchOutcome
  | httpError : Nat → FetchOutcome
  | transportError : String → FetchOutcome
  | otherError : String → FetchOutcome

/-- `True` exactly on the two failure kinds that the strict fetchers
translate into `ConnectionError` (non-2xx status, transport error). -/
def FetchOutcome.isConnFailure : FetchOutcome → Bool
  | .httpError _ => true
  | .transportError _ => true
  | _ => false

/-- `True` exactly on a successful, parseable response. -/
def FetchOutcome.isSuccess : FetchOutcome → Bool
  | .success _ => true
  | _ => false

/-- The Python exceptions that cross the boundaries of the embedded code:
pydantic validation errors, `ConnectionError` raised by the strict fetchers,
`RuntimeError`, and everything else (e.g. re-raised parse errors). -/
inductive Exc where
  | validationError : String → Exc
  | connectionError : String → Exc
  | runtimeError : String → Exc
  | otherExc : String → Exc
  deriving DecidableEq, Repr

/-- Externally observable calls an operation makes, in order: an HTTP GET of
one REST endpoint, and the repository operations. -/
inductive Event where
  | httpGet : String → Event
  | repoCreate : String → Event
  | repoUpdateData : String → Event
  | repoGetById : String → Event
  | repoDelete : String → Event
  deriving DecidableEq, Repr

/-- The env-sourced configuration (src/app/config.py). -/
structure Settings where
  app_env : String
  mikrotik_default_port : Nat
  mikrotik_timeout : Nat
  mikrotik_username : String
  mikrotik_password : String
  deriving DecidableEq, Repr

/-- Python `x or default` on an `Optional[str]`: `None` and the empty string
are falsy, any other string is returned unchanged. -/
def pyOrOpt (v : Option String) (dflt : String) : String :=
  match v with
  | none => dflt
  | some s => if s = "" then dflt else s

/-- `x if x else None` on a `str`. -/
def noneIfEmpty (s : String) : Option String :=
  if s = "" then none else some s

/-- The REST surface of the remote device: maps (ip, port, endpoint, username,
password) of an authenticated GET to its outcome. -/
structure World where
  net : String → Nat → String → String → String → FetchOutcome

namespace MikrotikService

/-- The response-shape normalization of `_fetch_endpoint`
(mikrotik_service.py lines 57-59):
`data[0] if isinstance(data[0], dict) else data` for a non-empty list, and
`data if isinstance(data, dict) else {}` otherwise. -/
def normalize_lenient (data : Json) : Json :=
  match data with
  | .arr (x :: rest) => if x.isObj then x else .arr (x :: rest)
  | d => if d.isObj then d else .obj []

/-- The response-shape normalization of `get_system_info`
(mikrotik_service.py lines 122-124): `data[0] if isinstance(data[0], dict)
else {}` for a non-empty list, and `{}` otherwise. -/
def normalize_system (data : Json) : Json :=
  match data with
  | .arr (x :: _) => if x.isObj then x else .obj []
  | _ => .obj []

/-- The response-shape normalization of `get_interfaces`
(mikrotik_service.py line 192): `data if isinstance(data, list) else []`. -/
def normalize_interfaces (data : Json) : Json :=
  match data with
  | .arr xs => .arr xs
  | _ => .arr []

/-- `MikrotikService._fetch_endpoint`: the lenient fetcher.  Raises
`RuntimeError` when the session is not open; otherwise issues one GET with
the effective credentials and returns the normalized body on success and an
empty mapping on every failure kind. -/
def fetch_endpoint (cfg : Settings) (w : World) (sessionOpen : Bool)
    (ip_address : String) (endpoint : String)
    (username password : Option String) (port : Nat)
    (ev : List Event) : Except Exc Json × List Event :=
  if !sessionOpen then
    (.error (.runtimeError "Service not initialized. Use async context manager."), ev)
  else
    let auth_username := pyOrOpt username cfg.mikrotik_username
    let auth_password := pyOrOpt password cfg.mikrotik_password
    let ev1 := ev ++ [.httpGet endpoint]
    match w.net ip_address port endpoint auth_username auth_password with
    | .success data => (.ok (normalize_lenient data), ev1)
    | .httpError _ => (.ok (.obj []), ev1)
    | .transportError _ => (.ok (.obj []), ev1)
    | .otherError _ => (.ok (.obj []), ev1)

/-- `MikrotikService.get_system_info`: the strict fetch of `system/resource`.
HTTP-status and transport failures become `ConnectionError`; any other
exception is re-raised unchanged. -/
def get_system_info (cfg : Settings) (w : World) (sessionOpen : Bool)
    (ip_address : String) (username password : Option String) (port : Nat)
    (ev : List Event) : Except Exc Json × List Event :=
  if !sessionOpen then
    (.error (.runtimeError "Service not initialized. Use async context manager."), ev)
  else
    let auth_username := pyOrOpt username cfg.mikrotik_username
    let auth_password := pyOrOpt password cfg.mikrotik_password
    let ev1 := ev ++ [.httpGet "system/resource"]
    match w.net ip_address port "system/resource" auth_username auth_password with
    | .success data => (.ok (normalize_system data), ev1)
    | .httpError code =>
        (.error (.connectionError ("Mikrotik API error: " ++ toString code)), ev1)
    | .transportError msg =>
        (.error (.connectionError ("Failed to connect to Mikrotik device: " ++ msg)), ev1)
    | .otherError msg => (.error (.otherExc msg), ev1)

/-- `MikrotikService.get_interfaces`: the strict fetch of `interface`, with
the same failure translation as `get_system_info` and the raw-list
normalization. -/
def get_interfaces (cfg : Settings) (w : World) (sessionOpen : Bool)
    (ip_address : String) (username password : Option String) (port : Nat)
    (ev : List Event) : Except Exc Json × List Event :=
  if !sessionOpen then
    (.error (.runtimeError "Service not initialized. Use async context manager."), ev)
  else
    let auth_username := pyOrOpt username cfg.mikrotik_username
    let auth_password := pyOrOpt password cfg.mikrotik_password
    let ev1 := ev ++ [.httpGet "interface"]
    match w.net ip_address port "interface" auth_username auth_password with
    | .success data => (.ok (normalize_interfaces data), ev1)
    | .httpError code =>
        (.error (.connectionError ("Mikrotik API error: " ++ toString code)), ev1)
    | .transportError msg =>
        (.error (.connectionError ("Failed to connect to Mikrotik device: " ++ msg)), ev1)
    | .otherError msg => (.error (.otherExc msg), ev1)

/-- `MikrotikService.get_identity`. -/
def get_identity (cfg : Settings) (w : World) (sessionOpen : Bool)
    (ip_address : String) (username password : Option String) (port : Nat)
    (ev : List Event) : Except Exc Json × List Event :=
  fetch_endpoint cfg w sessionOpen ip_address "system/identity" username password port ev

/-- `MikrotikService.get_routerboard`. -/
def get_routerboard (cfg : Settings) (w : World) (sessionOpen : Bool)
    (ip_address : String) (username password : Option String) (port : Nat)
    (ev : List Event) : Except Exc Json × List Event :=
  fetch_endpoint cfg w sessionOpen ip_address "system/routerboard" username password port ev

/-- `MikrotikService.get_clock`. -/
def get_clock (cfg : Settings) (w : World) (sessionOpen : Bool)
    (ip_address : String) (username password : Option String) (port : Nat)
    (ev : List Event) : Except Exc Json × List Event :=
  fetch_endpoint cfg w sessionOpen ip_address "system/clock" username password port ev

/-- `MikrotikService.get_license`. -/
def get_license (cfg : Settings) (w : World) (sessionOpen : Bool)
    (ip_address : String) (username password : Option String) (port : Nat)
    (ev : List Event) : Except Exc Json × List Event :=
  fetch_endpoint cfg w sessionOpen ip_address "system/license" username password port ev

/-- `MikrotikService.get_all_data`: sequentially fetches the six endpoints
and assembles the aggregated snapshot; its `except` clause only re-raises,
so every exception propagates unchanged. -/
def get_all_data (cfg : Settings) (w : World) (sessionOpen : Bool)
    (ip_address : String) (username password : Option String) (port : Nat)
    (ev : List Event) : Except Exc Json × List Event :=
  match get_system_info cfg w sessionOpen ip_address username password port ev with
  | (.error e, ev1) => (.error e, ev1)
  | (.ok system_info, ev1) =>
  match get_interfaces cfg w sessionOpen ip_address username password port ev1 with
  | (.error e, ev2) => (.error e, ev2)
  | (.ok interfaces, ev2) =>
  match get_identity cfg w sessionOpen ip_address username password port ev2 with
  | (.error e, ev3) => (.error e, ev3)
  | (.ok identity, ev3) =>
  match get_routerboard cfg w sessionOpen ip_address username password port ev3 with
  | (.error e, ev4) => (.error e, ev4)
  | (.ok routerboard, ev4) =>
  match get_clock cfg w sessionOpen ip_address username password port ev4 with
  | (.error e, ev5) => (.error e, ev5)
  | (.ok clock, ev5) =>
  match get_license cfg w sessionOpen ip_address username password port ev5 with
  | (.error e, ev6) => (.error e, ev6)
  | (.ok license_info, ev6) =>
      (.ok (.obj [("system", system_info), ("interfaces", interfaces),
                  ("identity", identity), ("routerboard", routerboard),
                  ("clock", clock), ("license", license_info)]), ev6)

end MikrotikService

/-- Modelled from the spec: the §4.1 response-shape normalization rule, "if
the body is a non-empty array, return its first element if that element is
itself a mapping, else return the raw element; if the body is empty or not a
mapping/array, return an empty mapping", used only for comparison with the
normalizations implemented in the code. -/
def spec_normalize (data : Json) : Json :=
  match data with
  | .arr (x :: _) => x
  | .obj kvs => .obj kvs
  | _ => .obj []

/-- The `Device` pydantic model (src/app/models/device.py).  Timestamps are
modelled as `Nat` ticks of a monotone clock; `last_accessed` and `data` are
nullable. -/
structure Device where
  id : String
  ip_address : String
  username : String
  port : Nat
  created_at : Nat
  last_accessed : Option Nat
  data : Option Json

/-- The `DeviceCreate` pydantic model: the validated registration input. -/
structure DeviceCreate where
  ip_address : String
  username : String
  password : String
  port : Nat

/-- The `DeviceResponse` pydantic model: the public representation returned
by the service (no `username`, no password). -/
structure DeviceResponse where
  id : String
  ip_address : String
  port : Nat
  created_at : Nat
  last_accessed : Option Nat
  data : Option Json

/-- Worker for `pySplit`, accumulating the current chunk in reverse. -/
def pySplitAux (sep : Char) : List Char → List Char → List String
  | [], acc => [String.mk acc.reverse]
  | c :: rest, acc =>
      if c = sep then String.mk acc.reverse :: pySplitAux sep rest []
      else pySplitAux sep rest (c :: acc)

/-- Python `s.split(sep)` for a one-character separator: every occurrence of
the separator ends a chunk, so `"".split(".") = [""]` and
`"a..b".split(".") = ["a", "", "b"]`. -/
def pySplit (sep : Char) (s : String) : List String :=
  pySplitAux sep s.toList []

/-- Python `str.isdigit()` restricted to ASCII decimal digits: true on a
non-empty all-digit string. -/
def pyIsDigit (s : String) : Bool :=
  !s.toList.isEmpty && s.toList.all Char.isDigit

/-- Decimal-value worker for `pyInt`. -/
def digitsToNat : List Char → Nat → Nat
  | [], acc => acc
  | c :: rest, acc => digitsToNat rest (acc * 10 + (c.toNat - '0'.toNat))

/-- Python `int(part)` on a digit string: its decimal value (on non-digit
strings the code never evaluates it, thanks to the `or` short-circuit). -/
def pyInt (s : String) : Nat :=
  digitsToNat s.toList 0

/-- `DeviceCreate.validate_ip_address` (device.py lines 15-24): split on
`.`, require exactly 4 parts, each a digit string whose value is at most 255
(the `0 <= int(part)` half of the check is vacuous on digit strings). -/
def validate_ip_address (v : String) : Except Exc String :=
  let parts := pySplit '.' v
  if parts.length ≠ 4 then
    .error (.validationError "Invalid IP address format")
  else if parts.all (fun part => pyIsDigit part && decide (pyInt part ≤ 255)) then
    .ok v
  else
    .error (.validationError "Invalid IP address format")

/-- Construction of a `DeviceCreate` value, as performed by pydantic before
any service code runs: the `ip_address` field validator, then the
`ge=1, le=65535` bound on `port`. -/
def mk_device_create (ip_address username password : String) (port : Nat) :
    Except Exc DeviceCreate :=
  match validate_ip_address ip_address with
  | .error e => .error e
  | .ok v =>
      if 1 ≤ port && port ≤ 65535 then
        .ok ⟨v, username, password, port⟩
      else
        .error (.validationError "Port out of range")

/-- The scalar values appearing in a persisted YAML device record:
strings, numbers (ISO-8601 timestamps round-trip exactly, so they are kept
as their tick value), `null`, or an embedded JSON document. -/
inductive FieldVal where
  | s : String → FieldVal
  | n : Nat → FieldVal
  | nullv : FieldVal
  | js : Json → FieldVal

namespace DeviceRepository

/-- `DeviceRepository._device_to_dict` (device_repository.py lines 32-41):
the exact flat record persisted for one device. -/
def device_to_dict (device : Device) : List (String × FieldVal) :=
  [ ("id", .s device.id),
    ("ip_address", .s device.ip_address),
    ("username", .s device.username),
    ("port", .n device.port),
    ("created_at", .n device.created_at),
    ("last_accessed",
      match device.last_accessed with
      | some t => .n t
      | none => .nullv),
    ("data",
      match device.data with
      | some j => .js j
      | none => .nullv) ]

/-- `DeviceRepository._dict_to_device` (device_repository.py lines 43-52):
reconstruction of a `Device` from the persisted record; `none` models the
KeyError on a record not of the persisted shape. -/
def dict_to_device (m : List (String × FieldVal)) : Option Device :=
  match m.lookup "id", m.lookup "ip_address", m.lookup "username",
        m.lookup "port", m.lookup "created_at" with
  | some (.s id), some (.s ip), some (.s user), some (.n port), some (.n created) =>
      let last : Option Nat :=
        match m.lookup "last_accessed" with
        | some (.n t) => some t
        | _ => none
      let dat : Option Json :=
        match m.lookup "data" with
        | some (.js j) => some j
        | _ => none
      some ⟨id, ip, user, port, created, last, dat⟩
  | _, _, _, _, _ => none

/-- Python dict assignment `d[k] = v`: replace in place when the key exists,
append otherwise. -/
def dictSet {α : Type} : List (String × α) → String → α → List (String × α)
  | [], k, v => [(k, v)]
  | (k1, v1) :: rest, k, v =>
      if k1 = k then (k, v) :: rest else (k1, v1) :: dictSet rest k v

/-- Python `del d[k]` on the first (unique) occurrence of the key. -/
def dictDel {α : Type} : List (String × α) → String → List (String × α)
  | [], _ => []
  | (k1, v1) :: rest, k =>
      if k1 = k then rest else (k1, v1) :: dictDel rest k

/-- The state of the registry: the device mapping held in devices.yaml (keyed by
id, in insertion order, stored through `device_to_dict`), plus the uuid
generator and the wall clock, both modelled as monotone counters. -/
structure RepoState where
  devices : List (String × Device)
  next_uuid : Nat
  clock : Nat

/-- The empty registry (no devices.yaml file yet). -/
def emptyRepo : RepoState := ⟨[], 0, 0⟩

/-- `DeviceRepository.create` (device_repository.py lines 54-69): allocate a
fresh uuid, build the record with `created_at = now`, `last_accessed = None`,
`data = None`, persist it, and return it. -/
def create (ip_address username : String) (port : Nat) (s : RepoState) :
    Device × RepoState :=
  let device_id := "uuid-" ++ toString s.next_uuid
  let device : Device :=
    ⟨device_id, ip_address, username, port, s.clock, none, none⟩
  (device, ⟨dictSet s.devices device_id device, s.next_uuid + 1, s.clock + 1⟩)

/-- `DeviceRepository.get_by_id`. -/
def get_by_id (device_id : String) (s : RepoState) : Option Device :=
  s.devices.lookup device_id

/-- `DeviceRepository.get_all`. -/
def get_all (s : RepoState) : List Device :=
  s.devices.map Prod.snd

/-- `DeviceRepository.update_data` (device_repository.py lines 84-94): on a
known id, overwrite `data` and set `last_accessed = now`, persist, and return
the updated record; on an unknown id return `None` and leave the store
untouched. -/
def update_data (device_id : String) (data : Json) (s : RepoState) :
    Option Device × RepoState :=
  match s.devices.lookup device_id with
  | none => (none, s)
  | some device =>
      let updated : Device :=
        { device with data := some data, last_accessed := some s.clock }
      (some updated,
       ⟨dictSet s.devices device_id updated, s.next_uuid, s.clock + 1⟩)

/-- `DeviceRepository.delete` (device_repository.py lines 96-103): remove a
known id and report `True`; report `False` on an unknown id. -/
def delete (device_id : String) (s : RepoState) : Bool × RepoState :=
  match s.devices.lookup device_id with
  | none => (false, s)
  | some _ => (true, ⟨dictDel s.devices device_id, s.next_uuid, s.clock⟩)

end DeviceRepository

namespace DeviceService

open DeviceRepository MikrotikService

/-- The public response built from a repository record (shared by every
service operation). -/
def toResponse (device : Device) : DeviceResponse :=
  ⟨device.id, device.ip_address, device.port, device.created_at,
   device.last_accessed, device.data⟩

/-- `DeviceService.create_device` (device_service.py lines 19-101): resolve
the effective username, open a `MikrotikService` session, run `get_all_data`
with the supplied credentials, and only on success create the record,
populate it via `update_data`, and re-read it.  `device` is still `None`
when the fetch raises, so the `except` block deletes nothing and the failure
propagates with the registry untouched; after creation, a failed re-read is
compensated by deleting the created record. -/
def create_device (cfg : Settings) (w : World) (device_data : DeviceCreate)
    (st : RepoState) (ev : List Event) :
    Except Exc DeviceResponse × RepoState × List Event :=
  let username := if device_data.username = "" then cfg.mikrotik_username
                  else device_data.username
  match get_all_data cfg w true device_data.ip_address
      (noneIfEmpty device_data.username) (noneIfEmpty device_data.password)
      device_data.port ev with
  | (.error e, ev1) => (.error e, st, ev1)
  | (.ok mikrotik_data, ev1) =>
      let (device, st1) := create device_data.ip_address username device_data.port st
      let ev2 := ev1 ++ [.repoCreate device.id]
      let (_, st2) := update_data device.id mikrotik_data st1
      let ev3 := ev2 ++ [.repoUpdateData device.id]
      let ev4 := ev3 ++ [.repoGetById device.id]
      match get_by_id device.id st2 with
      | none =>
          let (_, st3) := DeviceRepository.delete device.id st2
          (.error (.runtimeError "Failed to retrieve created device"), st3,
           ev4 ++ [.repoDelete device.id])
      | some updated_device =>
          (.ok (toResponse updated_device), st2, ev4)

/-- `DeviceService.get_device`. -/
def get_device (device_id : String) (st : RepoState) (ev : List Event) :
    Option DeviceResponse × RepoState × List Event :=
  match get_by_id device_id st with
  | none => (none, st, ev ++ [.repoGetById device_id])
  | some device => (some (toResponse device), st, ev ++ [.repoGetById device_id])

/-- `DeviceService.get_all_devices`. -/
def get_all_devices (st : RepoState) : List DeviceResponse :=
  (get_all st).map toResponse

/-- `DeviceService.refresh_device_data` (device_service.py lines 131-162):
absent on an unknown id before any network call; otherwise re-run
`get_all_data` against the stored address and overwrite `data`. -/
def refresh_device_data (cfg : Settings) (w : World) (device_id : String)
    (username password : Option String) (st : RepoState) (ev : List Event) :
    Except Exc (Option DeviceResponse) × RepoState × List Event :=
  let ev1 := ev ++ [.repoGetById device_id]
  match get_by_id device_id st with
  | none => (.ok none, st, ev1)
  | some device =>
      match get_all_data cfg w true device.ip_address username password
          device.port ev1 with
      | (.error e, ev2) => (.error e, st, ev2)
      | (.ok mikrotik_data, ev2) =>
          let (_, st1) := update_data device_id mikrotik_data st
          let ev3 := ev2 ++ [.repoUpdateData device_id] ++ [.repoGetById device_id]
          match get_by_id device_id st1 with
          | none => (.ok none, st1, ev3)
          | some updated_device => (.ok (some (toResponse updated_device)), st1, ev3)

/-- `DeviceService.delete_device`. -/
def delete_device (device_id : String) (st : RepoState) (ev : List Event) :
    Bool × RepoState × List Event :=
  let (ok, st1) := DeviceRepository.delete device_id st
  (ok, st1, ev ++ [.repoDelete device_id])

end DeviceService

/-- The registration pipeline as entered from the presentation shell
(device_controller.py `create_device` handler): pydantic validates the
`DeviceCreate` input before the service runs, so a validation failure
surfaces before any network call or registry access. -/
def register_device (cfg : Settings) (w : World)
    (ip_address username password : String) (port : Nat)
    (st : DeviceRepository.RepoState) (ev : List Event) :
    Except Exc DeviceResponse × DeviceRepository.RepoState × List Event :=
  match mk_device_create ip_address username password port with
  | .error e => (.error e, st, ev)
  | .ok device_data => DeviceService.create_device cfg w device_data st ev

/-! ## Derived views and helper lemmas -/

/-- The value the lenient fetcher produces for one outcome: the normalized
body on success, an empty mapping on every failure. -/
def optValue : FetchOutcome → Json
  | .success b => MikrotikService.normalize_lenient b
  | _ => .obj []

/-- The result a strict fetcher produces for one outcome, parametrized by
its success normalization. -/
def strictResult (norm : Json → Json) : FetchOutcome → Except Exc Json
  | .success b => .ok (norm b)
  | .httpError code =>
      .error (.connectionError ("Mikrotik API error: " ++ toString code))
  | .transportError msg =>
      .error (.connectionError ("Failed to connect to Mikrotik device: " ++ msg))
  | .otherError msg => .error (.otherExc msg)

/-- A required-endpoint connection-kind failure, as the sequential
aggregation encounters it: `system/resource` fails with an HTTP-status or
transport error, or it succeeds and `interface` fails with one. -/
def requiredConnFailure (cfg : Settings) (w : World) (ip_address : String)
    (username password : Option String) (port : Nat) : Bool :=
  let u := pyOrOpt username cfg.mikrotik_username
  let p := pyOrOpt password cfg.mikrotik_password
  (w.net ip_address port "system/resource" u p).isConnFailure ||
    ((w.net ip_address port "system/resource" u p).isSuccess &&
      (w.net ip_address port "interface" u p).isConnFailure)

/-- Both required endpoints answer successfully. -/
def requiredOk (cfg : Settings) (w : World) (ip_address : String)
    (username password : Option String) (port : Nat) : Bool :=
  let u := pyOrOpt username cfg.mikrotik_username
  let p := pyOrOpt password cfg.mikrotik_password
  (w.net ip_address port "system/resource" u p).isSuccess &&
    (w.net ip_address port "interface" u p).isSuccess

/-! ## Concrete fixtures for witnesses and counterexamples -/

/-- A concrete configuration value. -/
def cfg0 : Settings := ⟨"development", 80, 10, "admin", "secret"⟩

/-- A concrete registration input. -/
def dd0 : DeviceCreate := ⟨"10.0.0.5", "admin", "pw", 80⟩

/-- An unreachable device: every GET ends in a transport error. -/
def downWorld : World := ⟨fun _ _ _ _ _ => .transportError "Connection refused"⟩

/-- A healthy device: `interface` answers with a list of mappings, every
other endpoint with a mapping. -/
def upWorld : World :=
  ⟨fun _ _ endpoint _ _ =>
    if endpoint = "interface" then .success (.arr [.obj [("name", .str "ether1")]])
    else .success (.obj [("x", .str "v")])⟩

/-- A device answering every endpoint with the same mapping body. -/
def objWorld : World := ⟨fun _ _ _ _ _ => .success (.obj [("k", .str "v")])⟩

/-- A device answering every endpoint with the same fixed body. -/
def constWorld (b : Json) : World := ⟨fun _ _ _ _ _ => .success b⟩

theorem fetch_endpoint_true_eq (cfg : Settings) (w : World) (ip e : String)
    (u p : Option String) (port : Nat) (ev : List Event) :
    MikrotikService.fetch_endpoint cfg w true ip e u p port ev =
      (.ok (optValue (w.net ip port e (pyOrOpt u cfg.mikrotik_username)
        (pyOrOpt p cfg.mikrotik_password))), ev ++ [.httpGet e]) := by
  cases h : w.net ip port e (pyOrOpt u cfg.mikrotik_username)
      (pyOrOpt p cfg.mikrotik_password) <;>
    simp [MikrotikService.fetch_endpoint, optValue, h]

theorem get_system_info_true_eq (cfg : Settings) (w : World) (ip : String)
    (u p : Option String) (port : Nat) (ev : List Event) :
    MikrotikService.get_system_info cfg w true ip u p port ev =
      (strictResult MikrotikService.normalize_system
        (w.net ip port "system/resource" (pyOrOpt u cfg.mikrotik_username)
          (pyOrOpt p cfg.mikrotik_password)),
       ev ++ [.httpGet "system/resource"]) := by
  cases h : w.net ip port "system/resource" (pyOrOpt u cfg.mikrotik_username)
      (pyOrOpt p cfg.mikrotik_password) <;>
    simp [MikrotikService.get_system_info, strictResult, h]

theorem get_interfaces_true_eq (cfg : Settings) (w : World) (ip : String)
    (u p : Option String) (port : Nat) (ev : List Event) :
    MikrotikService.get_interfaces cfg w true ip u p port ev =
      (strictResult MikrotikService.normalize_interfaces
        (w.net ip port "interface" (pyOrOpt u cfg.mikrotik_username)
          (pyOrOpt p cfg.mikrotik_password)),
       ev ++ [.httpGet "interface"]) := by
  cases h : w.net ip port "interface" (pyOrOpt u cfg.mikrotik_username)
      (pyOrOpt p cfg.mikrotik_password) <;>
    simp [MikrotikService.get_interfaces, strictResult, h]

/-- Full characterization of one aggregation run with an open session. -/
theorem get_all_data_true_eq (cfg : Settings) (w : World) (ip : String)
    (u p : Option String) (port : Nat) (ev : List Event) :
    MikrotikService.get_all_data cfg w true ip u p port ev =
      match strictResult MikrotikService.normalize_system
          (w.net ip port "system/resource" (pyOrOpt u cfg.mikrotik_username)
            (pyOrOpt p cfg.mikrotik_password)) with
      | .error e => (.error e, ev ++ [.httpGet "system/resource"])
      | .ok system_info =>
        match strictResult MikrotikService.normalize_interfaces
            (w.net ip port "interface" (pyOrOpt u cfg.mikrotik_username)
              (pyOrOpt p cfg.mikrotik_password)) with
        | .error e =>
            (.error e, ev ++ [.httpGet "system/resource", .httpGet "interface"])
        | .ok interfaces =>
            (.ok (.obj [("system", system_info), ("interfaces", interfaces),
              ("identity", optValue (w.net ip port "system/identity"
                (pyOrOpt u cfg.mikrotik_username) (pyOrOpt p cfg.mikrotik_password))),
              ("routerboard", optValue (w.net ip port "system/routerboard"
                (pyOrOpt u cfg.mikrotik_username) (pyOrOpt p cfg.mikrotik_password))),
              ("clock", optValue (w.net ip port "system/clock"
                (pyOrOpt u cfg.mikrotik_username) (pyOrOpt p cfg.mikrotik_password))),
              ("license", optValue (w.net ip port "system/license"
                (pyOrOpt u cfg.mikrotik_username) (pyOrOpt p cfg.mikrotik_password)))]),
             ev ++ [.httpGet "system/resource", .httpGet "interface",
                    .httpGet "system/identity", .httpGet "system/routerboard",
                    .httpGet "system/clock", .httpGet "system/license"]) := by
  cases h1 : w.net ip port "system/resource" (pyOrOpt u cfg.mikrotik_username)
      (pyOrOpt p cfg.mikrotik_password) <;>
    cases h2 : w.net ip port "interface" (pyOrOpt u cfg.mikrotik_username)
        (pyOrOpt p cfg.mikrotik_password) <;>
      simp [MikrotikService.get_all_data, MikrotikService.get_identity,
        MikrotikService.get_routerboard, MikrotikService.get_clock,
        MikrotikService.get_license, get_system_info_true_eq,
        get_interfaces_true_eq, fetch_endpoint_true_eq, strictResult, h1, h2]

theorem lookup_dictSet_self {α : Type} (l : List (String × α)) (k : String)
    (v : α) : (DeviceRepository.dictSet l k v).lookup k = some v := by
  induction l with
  | nil => simp [DeviceRepository.dictSet, List.lookup]
  | cons hd tl ih =>
      by_cases h : hd.1 = k
      · simp [DeviceRepository.dictSet, h, List.lookup]
      · have h2 : (k == hd.1) = false := beq_eq_false_iff_ne.mpr (Ne.symm h)
        simp [DeviceRepository.dictSet, h, List.lookup, h2, ih]

/-! ## Claims -/

/-- C10: given an open session, the lenient endpoint fetch is total over
failures: every failure kind (non-2xx status, transport error, any other
exception) yields an empty mapping and never raises; only calling it without
an open session raises (`RuntimeError`). -/
theorem spec_C10_lenient_fetch_total :
    (∀ cfg w ip e u p port ev,
      (w.net ip port e (pyOrOpt u cfg.mikrotik_username)
          (pyOrOpt p cfg.mikrotik_password)).isSuccess = false →
        MikrotikService.fetch_endpoint cfg w true ip e u p port ev =
          (.ok (.obj []), ev ++ [.httpGet e])) ∧
    (∀ cfg w ip e u p port ev, ∃ j,
      (MikrotikService.fetch_endpoint cfg w true ip e u p port ev).1 = .ok j) ∧
    (∀ cfg w ip e u p port ev,
      MikrotikService.fetch_endpoint cfg w false ip e u p port ev =
        (.error (.runtimeError "Service not initialized. Use async context manager."),
         ev)) := by
  refine ⟨?_, ?_, ?_⟩
  · intro cfg w ip e u p port ev h
    cases ho : w.net ip port e (pyOrOpt u cfg.mikrotik_username)
        (pyOrOpt p cfg.mikrotik_password) <;>
      simp_all [fetch_endpoint_true_eq, optValue, FetchOutcome.isSuccess]
  · intro cfg w ip e u p port ev
    rw [fetch_endpoint_true_eq]
    exact ⟨_, rfl⟩
  · intro cfg w ip e u p port ev
    simp [MikrotikService.fetch_endpoint]

/-- Witness for C10 at a concrete transport failure and a closed session. -/
theorem spec_C10_witness :
    MikrotikService.fetch_endpoint cfg0 downWorld true "10.0.0.5"
        "system/identity" none none 80 [] =
      (.ok (.obj []), [.httpGet "system/identity"]) ∧
    MikrotikService.fetch_endpoint cfg0 downWorld false "10.0.0.5"
        "system/identity" none none 80 [] =
      (.error (.runtimeError "Service not initialized. Use async context manager."),
       []) :=
  ⟨spec_C10_lenient_fetch_total.1 cfg0 downWorld "10.0.0.5" "system/identity"
      none none 80 [] rfl,
   spec_C10_lenient_fetch_total.2.2 cfg0 downWorld "10.0.0.5" "system/identity"
      none none 80 []⟩

/-- C4: the aggregation raises `ConnectionError` exactly when a required
endpoint (`system/resource`, or `interface` after it succeeded) fails with a
connection-kind failure (non-2xx status or transport error, the failure
classification of the spec), and it succeeds exactly when both required
endpoints succeed — failures of the four optional endpoints are absorbed and
never surface. -/
theorem spec_C4_connection_failure_iff_required :
    ∀ cfg w ip u p port ev,
      ((∃ m, (MikrotikService.get_all_data cfg w true ip u p port ev).1 =
          .error (.connectionError m)) ↔
        requiredConnFailure cfg w ip u p port = true) ∧
      ((∃ j, (MikrotikService.get_all_data cfg w true ip u p port ev).1 = .ok j) ↔
        requiredOk cfg w ip u p port = true) := by
  intro cfg w ip u p port ev
  rw [get_all_data_true_eq]
  cases h1 : w.net ip port "system/resource" (pyOrOpt u cfg.mikrotik_username)
      (pyOrOpt p cfg.mikrotik_password) <;>
    cases h2 : w.net ip port "interface" (pyOrOpt u cfg.mikrotik_username)
        (pyOrOpt p cfg.mikrotik_password) <;>
      simp [requiredConnFailure, requiredOk, strictResult,
        FetchOutcome.isConnFailure, FetchOutcome.isSuccess, h1, h2]

/-- C5: a successful aggregation returns a mapping with exactly the six keys
`system`, `interfaces`, `identity`, `routerboard`, `clock`, `license` in
this order, and issues exactly the six endpoint GETs sequentially in the
fixed order `system/resource`, `interface`, `system/identity`,
`system/routerboard`, `system/clock`, `system/license`. -/
theorem spec_C5_snapshot_keys_and_order :
    ∀ cfg w ip u p port ev j evOut,
      MikrotikService.get_all_data cfg w true ip u p port ev = (.ok j, evOut) →
      (∃ s i idn rb ck lc,
        j = .obj [("system", s), ("interfaces", i), ("identity", idn),
                  ("routerboard", rb), ("clock", ck), ("license", lc)]) ∧
      evOut = ev ++ [.httpGet "system/resource", .httpGet "interface",
                     .httpGet "system/identity", .httpGet "system/routerboard",
                     .httpGet "system/clock", .httpGet "system/license"] := by
  intro cfg w ip u p port ev j evOut h
  rw [get_all_data_true_eq] at h
  cases h1 : w.net ip port "system/resource" (pyOrOpt u cfg.mikrotik_username)
      (pyOrOpt p cfg.mikrotik_password) <;>
    cases h2 : w.net ip port "interface" (pyOrOpt u cfg.mikrotik_username)
        (pyOrOpt p cfg.mikrotik_password) <;>
      simp [strictResult, h1, h2] at h
  obtain ⟨hj, hev⟩ := h
  exact ⟨⟨_, _, _, _, _, _, hj.symm⟩, hev.symm⟩

/-- Witness for C5: one concrete successful aggregation. -/
theorem spec_C5_witness :
    (MikrotikService.get_all_data cfg0 upWorld true "192.168.88.1" none none
        80 []).2 =
      [.httpGet "system/resource", .httpGet "interface",
       .httpGet "system/identity", .httpGet "system/routerboard",
       .httpGet "system/clock", .httpGet "system/license"] := by
  have h := spec_C5_snapshot_keys_and_order cfg0 upWorld "192.168.88.1" none
    none 80 []
    (.obj [("system", .obj []),
           ("interfaces", .arr [.obj [("name", .str "ether1")]]),
           ("identity", .obj [("x", .str "v")]),
           ("routerboard", .obj [("x", .str "v")]),
           ("clock", .obj [("x", .str "v")]),
           ("license", .obj [("x", .str "v")])])
    [.httpGet "system/resource", .httpGet "interface",
     .httpGet "system/identity", .httpGet "system/routerboard",
     .httpGet "system/clock", .httpGet "system/license"] rfl
  have h2 := h.2
  exact rfl

/-- C1: when a required endpoint fails with a connection-kind failure during
registration, `create_device` propagates a `ConnectionError` and the
registry is left exactly as it was, so a subsequent `get_all_devices` sees
no record from the attempt. -/
theorem spec_C1_required_failure_rolls_back :
    ∀ cfg w dd st ev,
      requiredConnFailure cfg w dd.ip_address (noneIfEmpty dd.username)
        (noneIfEmpty dd.password) dd.port = true →
      (∃ m, (DeviceService.create_device cfg w dd st ev).1 =
        .error (.connectionError m)) ∧
      (DeviceService.create_device cfg w dd st ev).2.1 = st ∧
      DeviceService.get_all_devices
          (DeviceService.create_device cfg w dd st ev).2.1 =
        DeviceService.get_all_devices st := by
  intro cfg w dd st ev h
  have hga : ∃ m ev1,
      MikrotikService.get_all_data cfg w true dd.ip_address
        (noneIfEmpty dd.username) (noneIfEmpty dd.password) dd.port ev =
      (.error (.connectionError m), ev1) := by
    rw [get_all_data_true_eq]
    unfold requiredConnFailure at h
    cases h1 : w.net dd.ip_address dd.port "system/resource"
        (pyOrOpt (noneIfEmpty dd.username) cfg.mikrotik_username)
        (pyOrOpt (noneIfEmpty dd.password) cfg.mikrotik_password) <;>
      cases h2 : w.net dd.ip_address dd.port "interface"
          (pyOrOpt (noneIfEmpty dd.username) cfg.mikrotik_username)
          (pyOrOpt (noneIfEmpty dd.password) cfg.mikrotik_password) <;>
        simp_all [strictResult, FetchOutcome.isConnFailure,
          FetchOutcome.isSuccess]
  obtain ⟨m, ev1, hga⟩ := hga
  simp [DeviceService.create_device, hga]

/-- Witness for C1 at a concrete unreachable device. -/
theorem spec_C1_witness :
    requiredConnFailure cfg0 downWorld "10.0.0.5" (noneIfEmpty "admin")
      (noneIfEmpty "pw") 80 = true ∧
    (DeviceService.create_device cfg0 downWorld dd0
        DeviceRepository.emptyRepo []).2.1 = DeviceRepository.emptyRepo :=
  ⟨rfl, (spec_C1_required_failure_rolls_back cfg0 downWorld dd0
      DeviceRepository.emptyRepo [] rfl).2.1⟩

/-- Counterexample for C2: with every endpoint unreachable, the very first
external call of `create_device` is the `system/resource` GET — no record is
created before (or during) the fetch, and no compensation delete happens:
the whole run is one HTTP GET, an unchanged registry and the propagated
`ConnectionError`. -/
theorem spec_C2_counterexample :
    DeviceService.create_device cfg0 downWorld dd0 DeviceRepository.emptyRepo [] =
      (.error (.connectionError
          "Failed to connect to Mikrotik device: Connection refused"),
       DeviceRepository.emptyRepo, [.httpGet "system/resource"]) := rfl

/-- C2 (amended): `create_device` follows fetch-first ordering — it opens
the session and runs the aggregated fetch first; on a required-endpoint
connection failure it propagates with the registry untouched and no record
ever created (trace contains only the fetch attempts), and on fetch success
it creates the record, populates it via `update_data` and re-reads it, all
after the six GETs. -/
theorem spec_C2_fetch_first_ordering :
    ∀ cfg w dd st ev,
      (requiredConnFailure cfg w dd.ip_address (noneIfEmpty dd.username)
          (noneIfEmpty dd.password) dd.port = true →
        (∃ m, (DeviceService.create_device cfg w dd st ev).1 =
          .error (.connectionError m)) ∧
        (DeviceService.create_device cfg w dd st ev).2.1 = st ∧
        ((DeviceService.create_device cfg w dd st ev).2.2 =
            ev ++ [.httpGet "system/resource"] ∨
         (DeviceService.create_device cfg w dd st ev).2.2 =
            ev ++ [.httpGet "system/resource", .httpGet "interface"])) ∧
      (requiredOk cfg w dd.ip_address (noneIfEmpty dd.username)
          (noneIfEmpty dd.password) dd.port = true →
        ∃ id,
          (DeviceService.create_device cfg w dd st ev).2.2 =
            ev ++ [.httpGet "system/resource", .httpGet "interface",
                   .httpGet "system/identity", .httpGet "system/routerboard",
                   .httpGet "system/clock", .httpGet "system/license",
                   .repoCreate id, .repoUpdateData id, .repoGetById id] ∧
          (∃ resp, (DeviceService.create_device cfg w dd st ev).1 = .ok resp)) := by
  intro cfg w dd st ev
  constructor
  · intro h
    have hga : ∃ m,
        MikrotikService.get_all_data cfg w true dd.ip_address
            (noneIfEmpty dd.username) (noneIfEmpty dd.password) dd.port ev =
          (.error (.connectionError m), ev ++ [.httpGet "system/resource"]) ∨
        MikrotikService.get_all_data cfg w true dd.ip_address
            (noneIfEmpty dd.username) (noneIfEmpty dd.password) dd.port ev =
          (.error (.connectionError m),
           ev ++ [.httpGet "system/resource", .httpGet "interface"]) := by
      rw [get_all_data_true_eq]
      unfold requiredConnFailure at h
      cases h1 : w.net dd.ip_address dd.port "system/resource"
          (pyOrOpt (noneIfEmpty dd.username) cfg.mikrotik_username)
          (pyOrOpt (noneIfEmpty dd.password) cfg.mikrotik_password) <;>
        cases h2 : w.net dd.ip_address dd.port "interface"
            (pyOrOpt (noneIfEmpty dd.username) cfg.mikrotik_username)
            (pyOrOpt (noneIfEmpty dd.password) cfg.mikrotik_password) <;>
          simp_all [strictResult, FetchOutcome.isConnFailure,
            FetchOutcome.isSuccess]
    obtain ⟨m, hga | hga⟩ := hga <;>
      simp [DeviceService.create_device, hga]
  · intro h
    simp only [requiredOk] at h
    cases h1 : w.net dd.ip_address dd.port "system/resource"
        (pyOrOpt (noneIfEmpty dd.username) cfg.mikrotik_username)
        (pyOrOpt (noneIfEmpty dd.password) cfg.mikrotik_password) <;>
      simp [h1, FetchOutcome.isSuccess] at h
    cases h2 : w.net dd.ip_address dd.port "interface"
        (pyOrOpt (noneIfEmpty dd.username) cfg.mikrotik_username)
        (pyOrOpt (noneIfEmpty dd.password) cfg.mikrotik_password) <;>
      simp [h2, FetchOutcome.isSuccess] at h
    have hga := get_all_data_true_eq cfg w dd.ip_address
      (noneIfEmpty dd.username) (noneIfEmpty dd.password) dd.port ev
    rw [h1, h2] at hga
    simp only [strictResult] at hga
    refine ⟨"uuid-" ++ toString st.next_uuid, ?_, ?_⟩ <;>
      simp [DeviceService.create_device, hga, DeviceRepository.create,
        DeviceRepository.update_data, DeviceRepository.get_by_id,
        lookup_dictSet_self]

/-- Witness for C2 at a concrete unreachable device: the connection-failure
branch of the amended ordering theorem. -/
theorem spec_C2_witness :
    requiredConnFailure cfg0 downWorld "10.0.0.5" (noneIfEmpty "admin")
      (noneIfEmpty "pw") 80 = true ∧
    ((DeviceService.create_device cfg0 downWorld dd0
        DeviceRepository.emptyRepo []).2.2 = [] ++ [.httpGet "system/resource"] ∨
     (DeviceService.create_device cfg0 downWorld dd0
        DeviceRepository.emptyRepo []).2.2 =
       [] ++ [.httpGet "system/resource", .httpGet "interface"]) :=
  ⟨rfl, ((spec_C2_fetch_first_ordering cfg0 downWorld dd0
      DeviceRepository.emptyRepo []).1 rfl).2.2⟩

/-- Counterexample for C3: on the same successful mapping body, the three
fetch families return three different values — `system/identity` (the
lenient normalization) keeps the mapping, `system/resource` returns an empty
mapping, `interface` returns an empty array — so the normalization is not
applied identically to every endpoint, and the spec rule (which keeps the
mapping) disagrees with the `system/resource` and `interface` behavior. -/
theorem spec_C3_counterexample :
    (MikrotikService.get_identity cfg0 objWorld true "192.168.88.1" none none
        80 []).1 = .ok (.obj [("k", .str "v")]) ∧
    (MikrotikService.get_system_info cfg0 objWorld true "192.168.88.1" none
        none 80 []).1 = .ok (.obj []) ∧
    (MikrotikService.get_interfaces cfg0 objWorld true "192.168.88.1" none
        none 80 []).1 = .ok (.arr []) ∧
    spec_normalize (.obj [("k", .str "v")]) = .obj [("k", .str "v")] :=
  ⟨rfl, rfl, rfl, rfl⟩

/-- C3 (amended): each endpoint normalizes its successful body, but with
three different rules — the four optional endpoints share the lenient rule
(first element of a non-empty array when that element is a mapping, the
whole raw array otherwise, a mapping body unchanged, anything else an empty
mapping); `system/resource` keeps only a mapping first element of a
non-empty array and yields an empty mapping in every other case; and
`interface` keeps any array body and yields an empty array otherwise. -/
theorem spec_C3_per_endpoint_normalization :
    ∀ cfg b ip u p port ev,
      (MikrotikService.get_identity cfg (constWorld b) true ip u p port ev).1 =
        .ok (MikrotikService.normalize_lenient b) ∧
      (MikrotikService.get_routerboard cfg (constWorld b) true ip u p port ev).1 =
        .ok (MikrotikService.normalize_lenient b) ∧
      (MikrotikService.get_clock cfg (constWorld b) true ip u p port ev).1 =
        .ok (MikrotikService.normalize_lenient b) ∧
      (MikrotikService.get_license cfg (constWorld b) true ip u p port ev).1 =
        .ok (MikrotikService.normalize_lenient b) ∧
      (MikrotikService.get_system_info cfg (constWorld b) true ip u p port ev).1 =
        .ok (MikrotikService.normalize_system b) ∧
      (MikrotikService.get_interfaces cfg (constWorld b) true ip u p port ev).1 =
        .ok (MikrotikService.normalize_interfaces b) := by
  intro cfg b ip u p port ev
  refine ⟨?_, ?_, ?_, ?_, ?_, ?_⟩ <;>
    simp [MikrotikService.get_identity, MikrotikService.get_routerboard,
      MikrotikService.get_clock, MikrotikService.get_license,
      fetch_endpoint_true_eq, get_system_info_true_eq, get_interfaces_true_eq,
      constWorld, optValue, strictResult]

/-- C6: the dotted-quad validation is exact — a string splitting into four
digit parts each at most 255 always passes, any string with a different
number of parts or a non-digit or out-of-range part always fails with
`ValidationFailure`, and a failing validation surfaces from the registration
pipeline before any network call or registry access. -/
theorem spec_C6_ip_validation :
    (∀ s p1 p2 p3 p4,
      pySplit '.' s = [p1, p2, p3, p4] →
      (∀ part ∈ [p1, p2, p3, p4], pyIsDigit part = true ∧ pyInt part ≤ 255) →
      validate_ip_address s = .ok s) ∧
    (∀ s, (pySplit '.' s).length ≠ 4 →
      validate_ip_address s =
        .error (.validationError "Invalid IP address format")) ∧
    (∀ s part, part ∈ pySplit '.' s →
      (pyIsDigit part = false ∨ 255 < pyInt part) →
      validate_ip_address s =
        .error (.validationError "Invalid IP address format")) ∧
    (∀ cfg w ip user pass port st ev e,
      validate_ip_address ip = .error e →
      register_device cfg w ip user pass port st ev = (.error e, st, ev)) := by
  refine ⟨?_, ?_, ?_, ?_⟩
  · intro s p1 p2 p3 p4 hsplit hall
    have hcheck : ([p1, p2, p3, p4].all
        (fun part => pyIsDigit part && decide (pyInt part ≤ 255))) = true := by
      simp only [List.all_eq_true, Bool.and_eq_true, decide_eq_true_eq]
      exact hall
    simp [validate_ip_address, hsplit, hcheck]
  · intro s h
    simp only [validate_ip_address]
    rw [if_pos h]
  · intro s part hmem hbad
    cases hba : ((pySplit '.' s).all
        (fun part => pyIsDigit part && decide (pyInt part ≤ 255))) with
    | true =>
        exfalso
        have := List.all_eq_true.mp hba part hmem
        simp only [Bool.and_eq_true, decide_eq_true_eq] at this
        rcases hbad with hb | hb
        · rw [this.1] at hb; exact Bool.noConfusion hb
        · omega
    | false =>
        by_cases hlen : (pySplit '.' s).length ≠ 4
        · simp [validate_ip_address, hlen]
        · simp [validate_ip_address, hlen, hba]
  · intro cfg w ip user pass port st ev e h
    simp [register_device, mk_device_create, h]

/-- Witness for C6: a valid address passes; `999.1.1.1` is rejected by the
pipeline before any network call or registry access. -/
theorem spec_C6_witness :
    validate_ip_address "192.168.88.1" = .ok "192.168.88.1" ∧
    register_device cfg0 downWorld "999.1.1.1" "admin" "pw" 80
        DeviceRepository.emptyRepo [] =
      (.error (.validationError "Invalid IP address format"),
       DeviceRepository.emptyRepo, []) :=
  ⟨spec_C6_ip_validation.1 "192.168.88.1" "192" "168" "88" "1" rfl (by decide),
   spec_C6_ip_validation.2.2.2 cfg0 downWorld "999.1.1.1" "admin" "pw" 80
     DeviceRepository.emptyRepo []
     (.validationError "Invalid IP address format") rfl⟩

/-- C7: on a known id, `update_data` overwrites `data`, stamps
`last_accessed` with the current clock and leaves `created_at`,
`ip_address`, `username` and `port` untouched, as observed by a subsequent
`get_by_id`; the create-then-update round trip yields `last_accessed`
at or after `created_at`; an unknown id yields an absent result and an
unchanged store. -/
theorem spec_C7_update_data_frame :
    (∀ st id data d, DeviceRepository.get_by_id id st = some d →
      ∃ u, (DeviceRepository.update_data id data st).1 = some u ∧
        DeviceRepository.get_by_id id
          (DeviceRepository.update_data id data st).2 = some u ∧
        u.data = some data ∧ u.last_accessed = some st.clock ∧
        u.created_at = d.created_at ∧ u.ip_address = d.ip_address ∧
        u.username = d.username ∧ u.port = d.port) ∧
    (∀ st ip user port data, ∃ u t,
      DeviceRepository.get_by_id (DeviceRepository.create ip user port st).1.id
          (DeviceRepository.update_data
            (DeviceRepository.create ip user port st).1.id data
            (DeviceRepository.create ip user port st).2).2 = some u ∧
      u.data = some data ∧ u.ip_address = ip ∧ u.username = user ∧
      u.port = port ∧
      u.created_at = (DeviceRepository.create ip user port st).1.created_at ∧
      u.last_accessed = some t ∧ u.created_at ≤ t) ∧
    (∀ st id data, DeviceRepository.get_by_id id st = none →
      DeviceRepository.update_data id data st = (none, st)) := by
  refine ⟨?_, ?_, ?_⟩
  · intro st id data d h
    simp only [DeviceRepository.get_by_id] at h
    refine ⟨{ d with data := some data, last_accessed := some st.clock },
      ?_, ?_, rfl, rfl, rfl, rfl, rfl, rfl⟩
    · simp [DeviceRepository.update_data, h]
    · simp [DeviceRepository.update_data, DeviceRepository.get_by_id, h,
        lookup_dictSet_self]
  · intro st ip user port data
    refine ⟨⟨"uuid-" ++ toString st.next_uuid, ip, user, port, st.clock,
      some (st.clock + 1), some data⟩, st.clock + 1, ?_, rfl, rfl, rfl, rfl,
      rfl, rfl, Nat.le_succ _⟩
    simp [DeviceRepository.create, DeviceRepository.update_data,
      DeviceRepository.get_by_id, lookup_dictSet_self]
  · intro st id data h
    simp only [DeviceRepository.get_by_id] at h
    simp [DeviceRepository.update_data, h]

/-- Witness for C7 at the unknown-id branch on the empty registry. -/
theorem spec_C7_witness :
    DeviceRepository.update_data "missing" (.obj [])
        DeviceRepository.emptyRepo = (none, DeviceRepository.emptyRepo) :=
  spec_C7_update_data_frame.2.2 DeviceRepository.emptyRepo "missing"
    (.obj []) rfl

/-- C8: on an unknown id, `get_device` and `refresh_device_data` report an
absent result (before any network call, as the trace shows) and
`delete_device` reports `false`; none of the three raises. -/
theorem spec_C8_unknown_id_absent :
    ∀ cfg w st id u p ev, DeviceRepository.get_by_id id st = none →
      DeviceService.get_device id st ev = (none, st, ev ++ [.repoGetById id]) ∧
      DeviceService.refresh_device_data cfg w id u p st ev =
        (.ok none, st, ev ++ [.repoGetById id]) ∧
      DeviceService.delete_device id st ev =
        (false, st, ev ++ [.repoDelete id]) := by
  intro cfg w st id u p ev h
  have h2 := h
  simp only [DeviceRepository.get_by_id] at h2
  refine ⟨?_, ?_, ?_⟩ <;>
    simp [DeviceService.get_device, DeviceService.refresh_device_data,
      DeviceService.delete_device, DeviceRepository.delete, h, h2]

/-- Witness for C8 at a concrete unknown id on the empty registry. -/
theorem spec_C8_witness :
    DeviceService.delete_device "missing" DeviceRepository.emptyRepo [] =
      (false, DeviceRepository.emptyRepo, [.repoDelete "missing"]) :=
  (spec_C8_unknown_id_absent cfg0 downWorld DeviceRepository.emptyRepo
    "missing" none none [] rfl).2.2

/-- The aggregation depends on the registration password only through the
credentials handed to the device: if the device answers identically under
the two effective passwords, the whole aggregation result is identical. -/
theorem get_all_data_password_congr (cfg : Settings) (w : World) (so : Bool)
    (ip : String) (u p1 p2 : Option String) (port : Nat) (ev : List Event)
    (h : ∀ ip2 port2 e u2,
      w.net ip2 port2 e u2 (pyOrOpt p1 cfg.mikrotik_password) =
      w.net ip2 port2 e u2 (pyOrOpt p2 cfg.mikrotik_password)) :
    MikrotikService.get_all_data cfg w so ip u p1 port ev =
      MikrotikService.get_all_data cfg w so ip u p2 port ev := by
  simp only [MikrotikService.get_all_data, MikrotikService.get_system_info,
    MikrotikService.get_interfaces, MikrotikService.get_identity,
    MikrotikService.get_routerboard, MikrotikService.get_clock,
    MikrotikService.get_license, MikrotikService.fetch_endpoint, h]

/-- C9: the persisted record consists of exactly the seven fields `id`,
`ip_address`, `username`, `port`, `created_at`, `last_accessed`, `data` —
no `password` field — and the registration outcome, registry state included,
is unchanged by replacing the password whenever the device answers the two
effective credentials identically: the password reaches nothing but the
authenticated GETs. -/
theorem spec_C9_password_not_persisted :
    (∀ device : Device,
      (DeviceRepository.device_to_dict device).map Prod.fst =
        ["id", "ip_address", "username", "port", "created_at",
         "last_accessed", "data"]) ∧
    (∀ device : Device,
      "password" ∉ (DeviceRepository.device_to_dict device).map Prod.fst) ∧
    (∀ cfg w dd p2 st ev,
      (∀ ip port e u2,
        w.net ip port e u2
            (pyOrOpt (noneIfEmpty dd.password) cfg.mikrotik_password) =
        w.net ip port e u2
            (pyOrOpt (noneIfEmpty p2) cfg.mikrotik_password)) →
      DeviceService.create_device cfg w { dd with password := p2 } st ev =
        DeviceService.create_device cfg w dd st ev) := by
  refine ⟨?_, ?_, ?_⟩
  · intro device; rfl
  · intro device
    have h1 : (DeviceRepository.device_to_dict device).map Prod.fst =
        ["id", "ip_address", "username", "port", "created_at",
         "last_accessed", "data"] := rfl
    rw [h1]; decide
  · intro cfg w dd p2 st ev h
    have hga := get_all_data_password_congr cfg w true dd.ip_address
      (noneIfEmpty dd.username) (noneIfEmpty p2) (noneIfEmpty dd.password)
      dd.port ev (fun ip2 port2 e u2 => (h ip2 port2 e u2).symm)
    simp only [DeviceService.create_device]
    rw [hga]

/-- Witness for C9: replacing the password leaves the concrete registration
outcome unchanged when the device ignores credentials. -/
theorem spec_C9_witness :
    DeviceService.create_device cfg0 downWorld { dd0 with password := "other" }
        DeviceRepository.emptyRepo [] =
      DeviceService.create_device cfg0 downWorld dd0
        DeviceRepository.emptyRepo [] :=
  spec_C9_password_not_persisted.2.2 cfg0 downWorld dd0 "other"
    DeviceRepository.emptyRepo [] (fun _ _ _ _ => rfl)
